import Mathlib

/-!
Shallow embedding of the slackbot Go package (fuglede/slackbot): the
session state (`SlackBot`), the shared world of reference-typed resources
(channels, the WebSocket connection), the event model and dispatch
(`handleEvent`, `makeEventByType`, the per-event `invoke` methods), the
heartbeat loop (`sendPings`), the teardown path (`Disconnect`), the
outbound sender (`SendMessage`), the handshake (`getConnectionInformation`,
`Start`) and the SNI-stripping dialer (`dial`).

Go semantics modelled explicitly:
- A method with a VALUE receiver (`func (bot SlackBot) ...`) operates on a
  copy of the struct: its writes to plain fields are invisible to the
  caller.  The `...Call` wrappers apply this calling convention: they run
  the method body and discard the copy's field updates.  Channels and the
  `*websocket.Conn` pointer are reference types, so their effects survive
  the copy; they live in `World`.
- `int32` arithmetic wraps; `i32`, `i32add`, `i32sub` model it over `Int`.
- `json.Unmarshal` into a struct leaves absent fields at their zero value,
  and a failed unmarshal leaves the whole struct at its zero value; the
  decoding functions reproduce this.
- Channel sends are modelled as appending to the corresponding queue in
  `World`; `ws.Close()` increments `closeCount`; frames written to the
  connection are appended to `sentFrames`.  Handler invocations are
  additionally recorded in `handlerCalls` so that "the handler was not
  invoked" is observable.
-/

namespace Slackbot

/-- Wrap an integer into the signed 32-bit range, as Go `int32` overflow does. -/
def i32 (x : Int) : Int := (x + 2147483648) % 4294967296 - 2147483648

/-- Go `int32` addition. -/
def i32add (a b : Int) : Int := i32 (a + b)

/-- Go `int32` subtraction. -/
def i32sub (a b : Int) : Int := i32 (a - b)

/-- A JSON value, the payload of one wire frame. -/
inductive Json where
  | str : String → Json
  | num : Int → Json
  | bool : Bool → Json
  | null : Json
  | arr : List Json → Json
  | obj : List (String × Json) → Json

/-- Field lookup on a JSON object; `none` on non-objects and absent keys. -/
def Json.get? : Json → String → Option Json
  | .obj fields, key => fields.lookup key
  | _, _ => none

/-- A string field, defaulting to the Go zero value `""` when absent or non-string. -/
def strField (j : Json) (key : String) : String :=
  match j.get? key with
  | some (.str s) => s
  | _ => ""

/-- A boolean field, defaulting to the Go zero value `false`. -/
def boolField (j : Json) (key : String) : Bool :=
  match j.get? key with
  | some (.bool b) => b
  | _ => false

/-- An integer field, defaulting to the Go zero value `0`. -/
def intField (j : Json) (key : String) : Int :=
  match j.get? key with
  | some (.num n) => n
  | _ => 0

/-- events.go: `DndUpdatedUser.DndStatus`. Defaults are the Go zero values. -/
structure DndStatus where
  dndEnabled : Bool := false
  nextDndStartTs : Int := 0
  nextDndEndTs : Int := 0

/-- events.go: `DndUpdatedUser`. -/
structure DndUpdatedUser where
  type : String := ""
  user : String := ""
  dndStatus : DndStatus := {}

/-- events.go: `Hello`. -/
structure Hello where
  type : String := ""

/-- events.go: `pongMessage`. -/
structure PongMessage where
  replyTo : Int := 0
  type : String := ""

/-- events.go: `MessageIn`. -/
structure MessageIn where
  type : String := ""
  hidden : Bool := false
  channel : String := ""
  user : String := ""
  text : String := ""
  ts : String := ""

/-- events.go: `PresenceChange`. -/
structure PresenceChange where
  type : String := ""
  user : String := ""
  presence : String := ""

/-- start.go: `pingMessage`, the outbound heartbeat probe. -/
structure PingMessage where
  id : Int := 0
  type : String := ""

/-- helpers.go: `messageOut`, the outbound chat message. -/
structure MessageOut where
  id : Int := 0
  type : String := ""
  channel : String := ""
  text : String := ""

/-- A frame written to the WebSocket connection. -/
inductive Frame where
  | ping : PingMessage → Frame
  | message : MessageOut → Frame

/-- Observational record of a user callback actually being invoked. -/
inductive HandlerCall where
  | onDndUpdatedUser : DndUpdatedUser → HandlerCall
  | onHello : Hello → HandlerCall
  | onMessage : MessageIn → HandlerCall
  | onPresenceChange : PresenceChange → HandlerCall

/-- The reference-typed resources shared by every copy of the bot struct:
the two delivery channels, the WebSocket connection (close count and
written frames), plus instrumentation counters (`handlerCalls`,
`secondParses`, `dialAttempts`) that record events the claims observe. -/
structure World where
  callbackErrors : List String := []
  done : List Bool := []
  closeCount : Nat := 0
  sentFrames : List Frame := []
  handlerCalls : List HandlerCall := []
  secondParses : Nat := 0
  dialAttempts : Nat := 0

/-- The initial world: empty channels, open connection, nothing written. -/
def World.init : World := {}

/-- slackbot.go: the `SlackBot` struct.  The channels and the connection
handle are reference types and live in `World`; the plain fields below are
copied whenever a value-receiver method is called.  Handlers return
`Option String`: `some e` models a non-nil Go `error`. -/
structure SlackBot where
  OnDndUpdatedUser : Option (DndUpdatedUser → Option String) := none
  OnHello : Option (Hello → Option String) := none
  OnMessage : Option (MessageIn → Option String) := none
  OnPresenceChange : Option (PresenceChange → Option String) := none
  id : String := ""
  name : String := ""
  messageID : Int := 0
  lastPing : Int := 0
  lastPong : Int := 0
  disconnected : Bool := false

/-- slackbot.go: `New` — fresh bot, counters at zero, not disconnected. -/
def New : SlackBot := { messageID := 0, disconnected := false }

/-- start.go: body of `func (bot SlackBot) Disconnect() error`.
Returns the method's local copy of the receiver after its writes, the
world effects, and the returned error.  `bot.ws.Close()` is the close
count increment; its own return value is external and modelled as nil. -/
def SlackBot.Disconnect (bot : SlackBot) (w : World) :
    SlackBot × World × Option String :=
  if !bot.disconnected then
    let w := { w with done := w.done ++ [true] }
    let bot := { bot with disconnected := true }
    (bot, { w with closeCount := w.closeCount + 1 }, none)
  else
    (bot, w, some "bot is already disconnected")

/-- Calling `bot.Disconnect()`: the receiver is a VALUE, so the copy's
field writes (in particular `disconnected := true`) are discarded and the
caller's bot is returned unchanged; only the world effects and the error
survive. -/
def disconnectCall (bot : SlackBot) (w : World) :
    SlackBot × World × Option String :=
  let r := bot.Disconnect w
  (bot, r.2.1, r.2.2)

/-- helpers.go: body of `func (bot SlackBot) SendMessage(channel, message
string) error`.  `atomic.AddInt32(&bot.messageID, 1)` increments the
receiver copy's counter; the frame is then written with that copy's
counter value.  The transmission result of `websocket.JSON.Send` is
external and modelled as nil. -/
def SlackBot.SendMessage (bot : SlackBot) (w : World)
    (channel message : String) : SlackBot × World × Option String :=
  let bot := { bot with messageID := i32add bot.messageID 1 }
  let out : MessageOut :=
    { id := bot.messageID, type := "message", channel := channel, text := message }
  (bot, { w with sentFrames := w.sentFrames ++ [Frame.message out] }, none)

/-- Calling `bot.SendMessage(...)`: value receiver, so the incremented
counter lives only in the copy and the caller's bot is unchanged. -/
def sendMessageCall (bot : SlackBot) (w : World) (channel message : String) :
    SlackBot × World × Option String :=
  let r := bot.SendMessage w channel message
  (bot, r.2.1, r.2.2)

/-- The identifiers carried by the frames written to the connection. -/
def frameIds (w : World) : List Int :=
  w.sentFrames.map fun f =>
    match f with
    | .ping p => p.id
    | .message m => m.id

/-- events.go: the sum of the event variants registered in `makeEventByType`. -/
inductive Event where
  | dndUpdatedUser : DndUpdatedUser → Event
  | hello : Hello → Event
  | messageIn : MessageIn → Event
  | pong : PongMessage → Event
  | presenceChange : PresenceChange → Event

/-- events.go: `makeEventByType` — the registry from type tag to a
zero-valued instance of the corresponding event variant; `none` for an
unregistered tag. -/
def makeEventByType (eventType : String) : Option Event :=
  if eventType = "dnd_updated_user" then some (.dndUpdatedUser {})
  else if eventType = "hello" then some (.hello {})
  else if eventType = "message" then some (.messageIn {})
  else if eventType = "pong" then some (.pong {})
  else if eventType = "presence_change" then some (.presenceChange {})
  else none

/-- The five type tags registered in `makeEventByType`. -/
def registeredTags : List String :=
  ["dnd_updated_user", "hello", "message", "pong", "presence_change"]

/-- Second-pass unmarshal of a raw frame into `DndUpdatedUser`. -/
def decodeDndUpdatedUser (j : Json) : DndUpdatedUser :=
  { type := strField j "type"
    user := strField j "user"
    dndStatus :=
      match j.get? "dnd_status" with
      | some s =>
        { dndEnabled := boolField s "dnd_enabled"
          nextDndStartTs := intField s "next_dnd_start_ts"
          nextDndEndTs := intField s "next_dnd_end_ts" }
      | none => {} }

/-- Second-pass unmarshal of a raw frame into `Hello`. -/
def decodeHello (j : Json) : Hello :=
  { type := strField j "type" }

/-- Second-pass unmarshal of a raw frame into `pongMessage`. -/
def decodePong (j : Json) : PongMessage :=
  { replyTo := intField j "reply_to", type := strField j "type" }

/-- Second-pass unmarshal of a raw frame into `MessageIn`. -/
def decodeMessageIn (j : Json) : MessageIn :=
  { type := strField j "type"
    hidden := boolField j "hidden"
    channel := strField j "channel"
    user := strField j "user"
    text := strField j "text"
    ts := strField j "ts" }

/-- Second-pass unmarshal of a raw frame into `PresenceChange`. -/
def decodePresenceChange (j : Json) : PresenceChange :=
  { type := strField j "type"
    user := strField j "user"
    presence := strField j "presence" }

/-- start.go, `handleEvent`: the second `json.Unmarshal(rawEvent, &event)`
into the variant picked by the registry.  A raw frame of `none` (bytes
that do not decode) leaves the zero value in place, as Go does. -/
def unmarshalEvent (ev : Event) (raw : Option Json) : Event :=
  match raw with
  | none => ev
  | some j =>
    match ev with
    | .dndUpdatedUser _ => .dndUpdatedUser (decodeDndUpdatedUser j)
    | .hello _ => .hello (decodeHello j)
    | .messageIn _ => .messageIn (decodeMessageIn j)
    | .pong _ => .pong (decodePong j)
    | .presenceChange _ => .presenceChange (decodePresenceChange j)

/-- events.go: `func (event DndUpdatedUser) invoke(bot *SlackBot) error`. -/
def DndUpdatedUser.invoke (event : DndUpdatedUser) (bot : SlackBot) (w : World) :
    SlackBot × World × Option String :=
  match bot.OnDndUpdatedUser with
  | some f =>
    (bot, { w with handlerCalls := w.handlerCalls ++ [.onDndUpdatedUser event] }, f event)
  | none => (bot, w, none)

/-- events.go: `func (event Hello) invoke(bot *SlackBot) error`. -/
def Hello.invoke (event : Hello) (bot : SlackBot) (w : World) :
    SlackBot × World × Option String :=
  match bot.OnHello with
  | some f => (bot, { w with handlerCalls := w.handlerCalls ++ [.onHello event] }, f event)
  | none => (bot, w, none)

/-- events.go: `func (event pongMessage) invoke(bot *SlackBot) error` —
records the acknowledged ping identifier on the shared bot. -/
def PongMessage.invoke (event : PongMessage) (bot : SlackBot) (w : World) :
    SlackBot × World × Option String :=
  ({ bot with lastPong := event.replyTo }, w, none)

/-- events.go: `func (event MessageIn) invoke(bot *SlackBot) error` —
`if bot.OnMessage != nil && !event.Hidden`. -/
def MessageIn.invoke (event : MessageIn) (bot : SlackBot) (w : World) :
    SlackBot × World × Option String :=
  match bot.OnMessage with
  | some f =>
    if !event.hidden then
      (bot, { w with handlerCalls := w.handlerCalls ++ [.onMessage event] }, f event)
    else (bot, w, none)
  | none => (bot, w, none)

/-- events.go: `func (event PresenceChange) invoke(bot *SlackBot) error`. -/
def PresenceChange.invoke (event : PresenceChange) (bot : SlackBot) (w : World) :
    SlackBot × World × Option String :=
  match bot.OnPresenceChange with
  | some f =>
    (bot, { w with handlerCalls := w.handlerCalls ++ [.onPresenceChange event] }, f event)
  | none => (bot, w, none)

/-- events.go: dispatch of `event.invoke(bot)` over the variants. -/
def Event.invoke : Event → SlackBot → World → SlackBot × World × Option String
  | .dndUpdatedUser e, bot, w => e.invoke bot w
  | .hello e, bot, w => e.invoke bot w
  | .messageIn e, bot, w => e.invoke bot w
  | .pong e, bot, w => e.invoke bot w
  | .presenceChange e, bot, w => e.invoke bot w

/-- start.go, `handleEvent`: the first-pass unmarshal into `typeOnlyEvent`.
The error of `json.Unmarshal` is discarded, so undecodable bytes
(`raw = none`) and frames without a string `type` field both leave the
zero value `""` in the tag. -/
def firstPassType (raw : Option Json) : String :=
  match raw with
  | some j => strField j "type"
  | none => ""

/-- start.go: `func (bot *SlackBot) handleEvent(rawEvent json.RawMessage)`.
Pointer receiver: updates to the bot's fields survive.  `secondParses`
counts the second `json.Unmarshal` steps performed. -/
def SlackBot.handleEvent (bot : SlackBot) (w : World) (rawEvent : Option Json) :
    SlackBot × World :=
  match makeEventByType (firstPassType rawEvent) with
  | none => (bot, w)
  | some ev0 =>
    let w := { w with secondParses := w.secondParses + 1 }
    let event := unmarshalEvent ev0 rawEvent
    let r := event.invoke bot w
    match r.2.2 with
    | some e => (r.1, { r.2.1 with callbackErrors := r.2.1.callbackErrors ++ [e] })
    | none => (r.1, r.2.1)

/-- The error (if any) that the dispatched handler for a raw frame
reports, as a zero- or one-element list; `[]` when nothing is dispatched.
Derived observer over the same dispatch path as `handleEvent`. -/
def invokeErrors (bot : SlackBot) (w : World) (rawEvent : Option Json) : List String :=
  match makeEventByType (firstPassType rawEvent) with
  | none => []
  | some ev0 =>
    let w := { w with secondParses := w.secondParses + 1 }
    match ((unmarshalEvent ev0 rawEvent).invoke bot w).2.2 with
    | some e => [e]
    | none => []

/-- Pong frames arriving (through the ordinary dispatch path) while the
heartbeat loop sleeps between two ticks: each one runs
`pongMessage.invoke` on the shared bot. -/
def applyPongs (p : SlackBot × World) (pongs : List Int) : SlackBot × World :=
  pongs.foldl
    (fun q r =>
      let s := PongMessage.invoke { replyTo := r, type := "pong" } q.1 q.2
      (s.1, s.2.1))
    p

/-- start.go: `func (bot *SlackBot) sendPings() error`, run for `fuel`
ticks.  `sched` lists, per sleep interval, the `reply_to` identifiers of
the pong frames dispatched during that interval.  The boolean result is
`true` when the loop exited through the missed-probe branch (which calls
`bot.Disconnect()` — a value-receiver call) and `false` when the fuel ran
out with the loop still running. -/
def sendPings : Nat → List (List Int) → SlackBot → World → SlackBot × World × Bool
  | 0, _, bot, w => (bot, w, false)
  | fuel + 1, sched, bot, w =>
    if i32sub bot.lastPing bot.lastPong > 2 then
      let r := disconnectCall bot w
      (bot, r.2.1, true)
    else
      let bot := { bot with lastPing := i32add bot.lastPing 1 }
      let w := { w with sentFrames := w.sentFrames ++ [Frame.ping { id := bot.lastPing, type := "ping" }] }
      let step :=
        match sched with
        | [] => (([] : List Int), ([] : List (List Int)))
        | p :: rest => (p, rest)
      let q := applyPongs (bot, w) step.1
      sendPings fuel step.2 q.1 q.2

/-- start.go: the `self` member of `connectMessage`. -/
structure ConnectSelf where
  ID : String := ""
  Name : String := ""

/-- start.go: the `team` member of `connectMessage`. -/
structure ConnectTeam where
  ID : String := ""
  Name : String := ""
  Domain : String := ""
  EnterpriseID : String := ""
  EnterpriseName : String := ""

/-- start.go: `connectMessage`, the response of the rtm.connect call. -/
structure ConnectMessage where
  Ok : Bool := false
  Error : String := ""
  URL : String := ""
  Team : ConnectTeam := {}
  Self : ConnectSelf := {}

/-- Unmarshal of the handshake response body into `connectMessage`, with
Go zero-value defaults for absent fields. -/
def decodeConnectMessage (j : Json) : ConnectMessage :=
  { Ok := boolField j "ok"
    Error := strField j "error"
    URL := strField j "url"
    Team :=
      match j.get? "team" with
      | some t =>
        { ID := strField t "id"
          Name := strField t "name"
          Domain := strField t "domain"
          EnterpriseID := strField t "enterprise_id"
          EnterpriseName := strField t "enterprise_name" }
      | none => {}
    Self :=
      match j.get? "self" with
      | some s => { ID := strField s "id", Name := strField s "name" }
      | none => {} }

/-- The outcome of the `http.Get` on the rtm.connect endpoint: either the
request itself failed, or it produced a status code and a body.  A body
of `none` stands for bytes that fail to read or to parse as JSON. -/
inductive HttpResult where
  | failed : String → HttpResult
  | resp : Int → Option Json → HttpResult

/-- start.go: `getConnectionInformation` — performs the handshake call and
parses the response; the concrete error strings of the body-read and
json-parse failures come from the Go libraries and are abstracted. -/
def getConnectionInformation (r : HttpResult) : Except String ConnectMessage :=
  match r with
  | .failed e => .error e
  | .resp status body =>
    if status ≠ 200 then
      .error ("API websocket URL request failed with code " ++ toString status)
    else
      match body with
      | none => .error "unmarshal error"
      | some j =>
        let msg := decodeConnectMessage j
        if !msg.Ok then .error ("Slack error: " ++ msg.Error)
        else .ok msg

/-- start.go: `func (bot *SlackBot) Start(token string) error`.  The HTTP
exchange and the WebSocket dial are external: their outcomes are inputs.
On a handshake error, Start returns it before touching the bot or
attempting any dial; otherwise it records the identity, attempts the dial
(counted in `dialAttempts`), and on success the listen and heartbeat
loops start as separate goroutines (modelled separately). -/
def SlackBot.Start (bot : SlackBot) (w : World) (r : HttpResult)
    (dialResult : Except String Unit) : SlackBot × World × Option String :=
  match getConnectionInformation r with
  | .error e => (bot, w, some e)
  | .ok msg =>
    let bot := { bot with id := msg.Self.ID, name := msg.Self.Name }
    let w := { w with dialAttempts := w.dialAttempts + 1 }
    match dialResult with
    | .error e => (bot, w, some e)
    | .ok _ => (bot, w, none)

/-- Matching `([^/]+)/` at the current position: a nonempty greedy run of
non-slash characters that must be terminated by a further `/`. -/
def hostAt (cs : List Char) : Option (List Char) :=
  let h := cs.takeWhile (· ≠ '/')
  if h.isEmpty then none
  else
    match cs.dropWhile (· ≠ '/') with
    | '/' :: _ => some h
    | _ => none

/-- Leftmost match of the regular expression `//([^/]+)/`, returning
capture group 1: scan for a position where `//` is followed by a host
segment, moving one character right after each failed attempt.  The fuel
argument (instantiated with the string length) only drives termination. -/
def findHostAux : Nat → List Char → Option (List Char)
  | 0, _ => none
  | _ + 1, [] => none
  | fuel + 1, c :: rest =>
    if c = '/' then
      match rest with
      | '/' :: rest2 =>
        match hostAt rest2 with
        | some h => some h
        | none => findHostAux fuel rest
      | _ => findHostAux fuel rest
    else findHostAux fuel rest

/-- `regexp.MustCompile("//([^/]+)/").FindStringSubmatch(url)`, group 1:
`some host` when the pattern matches, `none` when `FindStringSubmatch`
returns nil. -/
def extractHost (url : String) : Option String :=
  (findHostAux url.toList.length url.toList).map fun cs => String.mk cs

/-- `strings.Replace(s, pat, rep, 1)` for a nonempty pattern: replace the
first occurrence only.  (`extractHost` never yields an empty host, so the
empty-pattern behaviour of the Go function is out of reach.) -/
def replaceFirst : List Char → List Char → List Char → List Char
  | [], _, _ => []
  | c :: rest, pat, rep =>
    if pat.isPrefixOf (c :: rest) then rep ++ (c :: rest).drop pat.length
    else c :: replaceFirst rest pat rep

/-- How a call of the dialer ends: a Go runtime panic, a returned error,
or a dialed connection (recording the URL actually dialed and the host
the custom certificate check verifies against). -/
inductive DialOutcome where
  | panicked : String → DialOutcome
  | failed : String → DialOutcome
  | dialed : String → String → DialOutcome

/-- `func (bot SlackBot) dial(url string) (*websocket.Conn, error)` — the
SNI-stripping dialer.  `resolver` is the external `net.LookupHost`.  The
source indexes `FindStringSubmatch(url)[1]` and `addrs[0]` without a
bounds check, so a missing match and an empty address list are runtime
panics, not error returns. -/
def dial (url : String) (resolver : String → Except String (List String)) :
    DialOutcome :=
  match extractHost url with
  | none => .panicked "runtime error: index out of range"
  | some host =>
    match resolver host with
    | .error e => .failed ("could not resolve address of " ++ host ++ ": " ++ e)
    | .ok addrs =>
      match addrs with
      | [] => .panicked "runtime error: index out of range"
      | ip :: _ =>
        .dialed (String.mk (replaceFirst url.toList host.toList ip.toList)) host

/-! ## Helper lemmas -/

/-- Dispatching pong frames between ticks changes neither the world nor
the terminal flag: `pongMessage.invoke` only writes `lastPong`. -/
theorem applyPongs_preserves (l : List Int) (p : SlackBot × World) :
    (applyPongs p l).2 = p.2 ∧ (applyPongs p l).1.disconnected = p.1.disconnected := by
  induction l generalizing p with
  | nil => exact ⟨rfl, rfl⟩
  | cons r t ih =>
    have he : applyPongs p (r :: t) = applyPongs ({ p.1 with lastPong := r }, p.2) t := rfl
    rw [he]
    exact ⟨(ih _).1, (ih _).2⟩

/-- A `Disconnect` call on a bot whose flag is (still) unset posts one
completion entry and closes the connection once, leaving the written
frames alone. -/
theorem disconnectCall_world (bot : SlackBot) (w : World)
    (h : bot.disconnected = false) :
    (disconnectCall bot w).2.1.done = w.done ++ [true] ∧
    (disconnectCall bot w).2.1.closeCount = w.closeCount + 1 ∧
    (disconnectCall bot w).2.1.sentFrames = w.sentFrames := by
  simp [disconnectCall, SlackBot.Disconnect, h]

/-- `handleEvent` is the identity when the registry lookup fails. -/
theorem handleEvent_drop (bot : SlackBot) (w : World) (raw : Option Json)
    (h : makeEventByType (firstPassType raw) = none) :
    bot.handleEvent w raw = (bot, w) := by
  unfold SlackBot.handleEvent
  rw [h]

/-- A tag outside the five registered ones is absent from the registry. -/
theorem makeEventByType_eq_none (tag : String) (h : tag ∉ registeredTags) :
    makeEventByType tag = none := by
  simp [registeredTags] at h
  obtain ⟨h1, h2, h3, h4, h5⟩ := h
  simp [makeEventByType, h1, h2, h3, h4, h5]

/-- `invoke` never touches the delivery channels, the connection, the
parse counter, or the terminal flag; it can only call a handler, record
that call, and return the handler's error. -/
theorem Event.invoke_effects (ev : Event) (bot : SlackBot) (w : World) :
    (ev.invoke bot w).2.1.callbackErrors = w.callbackErrors ∧
    (ev.invoke bot w).2.1.done = w.done ∧
    (ev.invoke bot w).2.1.closeCount = w.closeCount ∧
    (ev.invoke bot w).1.disconnected = bot.disconnected := by
  cases ev with
  | dndUpdatedUser e =>
    cases hm : bot.OnDndUpdatedUser <;> simp [Event.invoke, DndUpdatedUser.invoke, hm]
  | hello e =>
    cases hm : bot.OnHello <;> simp [Event.invoke, Hello.invoke, hm]
  | messageIn e =>
    cases hm : bot.OnMessage with
    | none => simp [Event.invoke, MessageIn.invoke, hm]
    | some f =>
      by_cases hh : e.hidden <;> simp [Event.invoke, MessageIn.invoke, hm, hh]
  | pong e => simp [Event.invoke, PongMessage.invoke]
  | presenceChange e =>
    cases hm : bot.OnPresenceChange <;> simp [Event.invoke, PresenceChange.invoke, hm]

/-! ## Claim theorems -/

/-- Claim C1: the claim says Disconnect is idempotent — after a first
disconnection every further invocation observes the terminal flag,
reports `AlreadyDisconnectedError`, and neither closes the connection nor
posts to the Done queue again.  The code violates this: `Disconnect` has
a VALUE receiver, so `bot.disconnected = true` is written to a copy and
lost.  Two successive calls on a fresh bot both take the active branch:
the Done queue ends with two entries, the connection is closed twice, and
neither call returns the already-disconnected error. -/
theorem disconnect_second_call_posts_again :
    (disconnectCall (disconnectCall New World.init).1
        (disconnectCall New World.init).2.1).2.1.done = [true, true] ∧
    (disconnectCall (disconnectCall New World.init).1
        (disconnectCall New World.init).2.1).2.1.closeCount = 2 ∧
    (disconnectCall New World.init).2.2 = none ∧
    (disconnectCall (disconnectCall New World.init).1
        (disconnectCall New World.init).2.1).2.2 = none ∧
    (disconnectCall New World.init).1.disconnected = false :=
  ⟨rfl, rfl, rfl, rfl, rfl⟩

/-- Claim C2: the claim says outbound message identifiers are strictly
increasing across sends, with no two sends observing the same identifier.
The code violates this: `SendMessage` has a VALUE receiver, so
`atomic.AddInt32(&bot.messageID, 1)` increments the copy's counter and
the caller's counter never advances.  Two successive sends on a fresh bot
both write frames carrying identifier 1, and the bot's stored counter is
still 0 afterwards. -/
theorem sendMessage_ids_all_equal :
    frameIds (sendMessageCall (sendMessageCall New World.init "C1" "hi").1
        (sendMessageCall New World.init "C1" "hi").2.1 "C1" "there").2.1 = [1, 1] ∧
    (sendMessageCall New World.init "C1" "hi").1.messageID = 0 :=
  ⟨rfl, rfl⟩

/-- Claim C4: the claim says that when no hostname can be extracted from
the session URL, or when the hostname resolves to an empty address list,
the dialer fails with a `TransportError` and the error branch is reached
instead of an out-of-bounds access.  The code violates this: `dial`
indexes `FindStringSubmatch(url)[1]` and `addrs[0]` without a bounds
check, so both situations are runtime panics.  (Third conjunct: on a
well-formed URL with a resolvable host, the dialer does substitute the
first address into the URL and verifies against the original host.) -/
theorem dial_panics_instead_of_error :
    dial "wss:nohost" (fun _ => .ok ["10.0.0.1"])
      = .panicked "runtime error: index out of range" ∧
    dial "wss://gateway.example/ws" (fun _ => .ok [])
      = .panicked "runtime error: index out of range" ∧
    dial "wss://gateway.example/ws" (fun _ => .ok ["10.1.2.3"])
      = .dialed "wss://10.1.2.3/ws" "gateway.example" :=
  ⟨rfl, rfl, rfl⟩

/-- Claim C5: a `message` frame whose hidden flag is set never invokes
the registered OnMessage handler, regardless of the frame's channel,
user, text, or timestamp: `invoke` returns the bot and the world
unchanged (in particular no handler call is recorded) and reports no
error. -/
theorem messageIn_hidden_never_invokes (bot : SlackBot) (w : World)
    (e : MessageIn) (h : e.hidden = true) :
    MessageIn.invoke e bot w = (bot, w, none) := by
  cases hm : bot.OnMessage <;> simp [MessageIn.invoke, hm, h]

/-- Witness for C5 at a concrete hidden message and a bot with a
registered handler that would report an error if it ran. -/
theorem messageIn_hidden_never_invokes_witness :
    (MessageIn.mk "message" true "C1" "U1" "hi" "123.456").hidden = true ∧
    MessageIn.invoke (MessageIn.mk "message" true "C1" "U1" "hi" "123.456")
        { New with OnMessage := some fun _ => some "boom" } World.init
      = ({ New with OnMessage := some fun _ => some "boom" }, World.init, none) :=
  ⟨rfl, messageIn_hidden_never_invokes _ _ _ rfl⟩

/-- Claim C7: an inbound frame whose type tag is not among the five
registered variants is a no-op for dispatch: `handleEvent` returns the
bot and the world unchanged, so no handler is invoked, no second-pass
parse is performed, and nothing is pushed onto the callback-error
queue. -/
theorem handleEvent_unregistered_tag_noop (bot : SlackBot) (w : World)
    (raw : Option Json) (h : firstPassType raw ∉ registeredTags) :
    bot.handleEvent w raw = (bot, w) :=
  handleEvent_drop bot w raw (makeEventByType_eq_none _ h)

/-- Witness for C7 at a concrete frame with the unregistered tag
`goodbye`. -/
theorem handleEvent_unregistered_tag_noop_witness :
    firstPassType (some (Json.obj [("type", Json.str "goodbye")])) ∉ registeredTags ∧
    SlackBot.handleEvent New World.init (some (Json.obj [("type", Json.str "goodbye")]))
      = (New, World.init) :=
  ⟨by decide, handleEvent_unregistered_tag_noop _ _ _ (by decide)⟩

/-- Claim C10 (implicit): a frame that is not valid JSON (`raw = none`)
or has no `type` member is silently dropped by `handleEvent`: the
first-pass parse error is discarded, the tag is left at the zero value
`""`, which is unregistered, so the bot and the world are returned
unchanged — no handler runs, nothing is queued, and there is no crash. -/
theorem handleEvent_malformed_frame_dropped (bot : SlackBot) (w : World)
    (raw : Option Json)
    (h : raw = none ∨ ∃ j, raw = some j ∧ Json.get? j "type" = none) :
    bot.handleEvent w raw = (bot, w) := by
  have htag : firstPassType raw = "" := by
    rcases h with h | ⟨j, hj, hget⟩
    · rw [h]; rfl
    · rw [hj]; simp [firstPassType, strField, hget]
  exact handleEvent_drop bot w raw (by rw [htag]; rfl)

/-- Witness for C10 at a concrete well-formed JSON frame that lacks a
type tag. -/
theorem handleEvent_malformed_frame_dropped_witness :
    (some (Json.obj [("text", Json.str "hi")]) = none ∨
      ∃ j, some (Json.obj [("text", Json.str "hi")]) = some j ∧
        Json.get? j "type" = none) ∧
    SlackBot.handleEvent New World.init (some (Json.obj [("text", Json.str "hi")]))
      = (New, World.init) :=
  ⟨Or.inr ⟨_, rfl, rfl⟩,
    handleEvent_malformed_frame_dropped _ _ _ (Or.inr ⟨_, rfl, rfl⟩)⟩

/-- Claim C9: after the heartbeat loop has issued ping id 5, dispatching
the inbound frame `(type pong, reply_to 5)` updates the last-acknowledged
counter to 5, and on the next heartbeat tick the gap check does not
trigger: the loop does not disconnect (no Done entry) and instead sends
the next probe, ping id 6. -/
theorem pong_updates_lastPong_prevents_timeout :
    (SlackBot.handleEvent { New with lastPing := 5, lastPong := 4 } World.init
        (some (Json.obj [("type", Json.str "pong"), ("reply_to", Json.num 5)]))).1.lastPong = 5 ∧
    (sendPings 1 []
        (SlackBot.handleEvent { New with lastPing := 5, lastPong := 4 } World.init
          (some (Json.obj [("type", Json.str "pong"), ("reply_to", Json.num 5)]))).1
        (SlackBot.handleEvent { New with lastPing := 5, lastPong := 4 } World.init
          (some (Json.obj [("type", Json.str "pong"), ("reply_to", Json.num 5)]))).2).2.2 = false ∧
    (sendPings 1 []
        (SlackBot.handleEvent { New with lastPing := 5, lastPong := 4 } World.init
          (some (Json.obj [("type", Json.str "pong"), ("reply_to", Json.num 5)]))).1
        (SlackBot.handleEvent { New with lastPing := 5, lastPong := 4 } World.init
          (some (Json.obj [("type", Json.str "pong"), ("reply_to", Json.num 5)]))).2).2.1.done = [] ∧
    frameIds (sendPings 1 []
        (SlackBot.handleEvent { New with lastPing := 5, lastPong := 4 } World.init
          (some (Json.obj [("type", Json.str "pong"), ("reply_to", Json.num 5)]))).1
        (SlackBot.handleEvent { New with lastPing := 5, lastPong := 4 } World.init
          (some (Json.obj [("type", Json.str "pong"), ("reply_to", Json.num 5)]))).2).2.1 = [6] :=
  ⟨rfl, rfl, rfl, rfl⟩

/-- Claim C6: for every token, when the handshake response parses but
reports `ok = false`, Start fails with the protocol error carrying the
server's embedded error string, no dial is attempted (the world —
including its dial counter — is unchanged), and the bot is left
untouched, in particular unconnected. -/
theorem start_ok_false_protocol_error (bot : SlackBot) (w : World) (j : Json)
    (d : Except String Unit) (h : boolField j "ok" = false) :
    bot.Start w (.resp 200 (some j)) d
      = (bot, w, some ("Slack error: " ++ strField j "error")) := by
  simp [SlackBot.Start, getConnectionInformation, decodeConnectMessage, h]

/-- Witness for C6 at the concrete response body
`(ok false, error invalid_auth)`, with a dial oracle that would succeed
if it were consulted. -/
theorem start_ok_false_protocol_error_witness :
    boolField (Json.obj [("ok", Json.bool false), ("error", Json.str "invalid_auth")]) "ok" = false ∧
    SlackBot.Start New World.init
        (.resp 200 (some (Json.obj [("ok", Json.bool false), ("error", Json.str "invalid_auth")])))
        (.ok ())
      = (New, World.init,
          some ("Slack error: "
            ++ strField (Json.obj [("ok", Json.bool false), ("error", Json.str "invalid_auth")]) "error")) ∧
    strField (Json.obj [("ok", Json.bool false), ("error", Json.str "invalid_auth")]) "error"
      = "invalid_auth" :=
  ⟨rfl, start_ok_false_protocol_error New World.init _ (.ok ()) rfl, rfl⟩

/-- Claim C8: for every dispatched frame, `handleEvent` appends exactly
the error reported by the invoked handler (nothing when it returns nil)
to the callback-error queue, and never terminates the session: the Done
queue, the connection close count, and the bot's terminal flag are
untouched. -/
theorem handleEvent_handler_error_queued (bot : SlackBot) (w : World)
    (raw : Option Json) :
    (bot.handleEvent w raw).2.callbackErrors = w.callbackErrors ++ invokeErrors bot w raw ∧
    (bot.handleEvent w raw).2.done = w.done ∧
    (bot.handleEvent w raw).2.closeCount = w.closeCount ∧
    (bot.handleEvent w raw).1.disconnected = bot.disconnected := by
  cases hreg : makeEventByType (firstPassType raw) with
  | none => simp [SlackBot.handleEvent, invokeErrors, hreg]
  | some ev0 =>
    obtain ⟨hce, hdn, hcc, hdisc⟩ :=
      Event.invoke_effects (unmarshalEvent ev0 raw) bot
        { w with secondParses := w.secondParses + 1 }
    cases hr : ((unmarshalEvent ev0 raw).invoke bot
        { w with secondParses := w.secondParses + 1 }).2.2 with
    | some e =>
      simp [SlackBot.handleEvent, invokeErrors, hreg, hr, hce, hdn, hcc, hdisc]
    | none =>
      simp [SlackBot.handleEvent, invokeErrors, hreg, hr, hce, hdn, hcc, hdisc]

/-- Claim C3: whenever the heartbeat loop, run on a bot whose terminal
flag is unset, observes a gap between the last ping issued and the last
pong acknowledged exceeding the two-missed-probes threshold, it stops at
once without sending a further probe; and over any run (any tick budget
and any schedule of interleaved pongs), if the loop exited through that
branch the Done queue received exactly one entry and the connection was
closed exactly once, while if the loop is still running nothing was
posted or closed. -/
theorem sendPings_timeout_single_disconnect (fuel : Nat)
    (sched : List (List Int)) (bot : SlackBot) (w : World)
    (h : bot.disconnected = false) :
    ((sendPings fuel sched bot w).2.2 = true →
      (sendPings fuel sched bot w).2.1.done = w.done ++ [true] ∧
      (sendPings fuel sched bot w).2.1.closeCount = w.closeCount + 1) ∧
    ((sendPings fuel sched bot w).2.2 = false →
      (sendPings fuel sched bot w).2.1.done = w.done ∧
      (sendPings fuel sched bot w).2.1.closeCount = w.closeCount) ∧
    (i32sub bot.lastPing bot.lastPong > 2 → 0 < fuel →
      (sendPings fuel sched bot w).2.2 = true ∧
      (sendPings fuel sched bot w).2.1.sentFrames = w.sentFrames) := by
  induction fuel generalizing sched bot w with
  | zero =>
    refine ⟨?_, ?_, ?_⟩
    · intro hx; exact absurd hx (by simp [sendPings])
    · intro _; exact ⟨rfl, rfl⟩
    · intro _ hx; exact absurd hx (by omega)
  | succ n ih =>
    by_cases hc : i32sub bot.lastPing bot.lastPong > 2
    · have hout : sendPings (n + 1) sched bot w = (bot, (disconnectCall bot w).2.1, true) := by
        simp [sendPings, hc]
      obtain ⟨hd, hk, hs⟩ := disconnectCall_world bot w h
      rw [hout]
      exact ⟨fun _ => ⟨hd, hk⟩, fun hx => by simp at hx, fun _ _ => ⟨rfl, hs⟩⟩
    · cases sched with
      | nil =>
        have hout : sendPings (n + 1) [] bot w =
            sendPings n []
              { bot with lastPing := i32add bot.lastPing 1 }
              { w with sentFrames := w.sentFrames
                  ++ [Frame.ping { id := i32add bot.lastPing 1, type := "ping" }] } := by
          simp [sendPings, hc, applyPongs]
        rw [hout]
        obtain ⟨i1, i2, _⟩ := ih []
          { bot with lastPing := i32add bot.lastPing 1 }
          { w with sentFrames := w.sentFrames
              ++ [Frame.ping { id := i32add bot.lastPing 1, type := "ping" }] } h
        exact ⟨fun hx => i1 hx, fun hx => i2 hx, fun hg _ => absurd hg hc⟩
      | cons p rest =>
        have hout : sendPings (n + 1) (p :: rest) bot w =
            sendPings n rest
              (applyPongs
                ({ bot with lastPing := i32add bot.lastPing 1 },
                 { w with sentFrames := w.sentFrames
                     ++ [Frame.ping { id := i32add bot.lastPing 1, type := "ping" }] }) p).1
              (applyPongs
                ({ bot with lastPing := i32add bot.lastPing 1 },
                 { w with sentFrames := w.sentFrames
                     ++ [Frame.ping { id := i32add bot.lastPing 1, type := "ping" }] }) p).2 := by
          simp [sendPings, hc]
        obtain ⟨hq2, hqd⟩ := applyPongs_preserves p
          ({ bot with lastPing := i32add bot.lastPing 1 },
           { w with sentFrames := w.sentFrames
               ++ [Frame.ping { id := i32add bot.lastPing 1, type := "ping" }] })
        rw [hq2] at hout
        rw [hout]
        obtain ⟨i1, i2, _⟩ := ih rest
          (applyPongs
            ({ bot with lastPing := i32add bot.lastPing 1 },
             { w with sentFrames := w.sentFrames
                 ++ [Frame.ping { id := i32add bot.lastPing 1, type := "ping" }] }) p).1
          { w with sentFrames := w.sentFrames
              ++ [Frame.ping { id := i32add bot.lastPing 1, type := "ping" }] }
          (hqd.trans h)
        exact ⟨fun hx => i1 hx, fun hx => i2 hx, fun hg _ => absurd hg hc⟩

/-- Witness for C3: a fresh bot with no pongs ever scheduled; after four
ticks the gap exceeds the threshold, the loop exits, and exactly one
Done entry and one close are recorded. -/
theorem sendPings_timeout_single_disconnect_witness :
    New.disconnected = false ∧
    (sendPings 4 [] New World.init).2.2 = true ∧
    ((sendPings 4 [] New World.init).2.1.done = World.init.done ++ [true] ∧
      (sendPings 4 [] New World.init).2.1.closeCount = World.init.closeCount + 1) :=
  ⟨rfl, rfl, (sendPings_timeout_single_disconnect 4 [] New World.init rfl).1 rfl⟩

end Slackbot
